import Mathlib

/-!
# Kirin bootstrap (`kirin.go`): a shallow embedding

The file embeds the functions of `kirin.go` (`start`, `fileExists`,
`getConfig`, `setupLogging`, `createProxy`) as Lean functions.

Conventions of the embedding.

* A Go result `(T, error)` is a pair `T × Option GoError`; the error is `nil`
  exactly when the second component is `none`.  A Go pointer result
  `(*T, error)` is `Option T × Option GoError`, `none` standing for `nil`.
* Code of other packages (`os`, `ioutil`, `yaml`, `cert`, `clientv3`, `mint`,
  `auth`, `proxy`, the log rotator) is not part of `kirin.go`.  The operating
  system's file lookup is given a small concrete model (`FS`, `resolve`); every
  other collaborator is a parameter, bundled in `Collaborators`.
* Constants declared in other files of the package (`kirinDataDir`,
  `defaultTLSKeyFilename`, ...) are parameters, bundled in `Constants`.
-/

namespace Kirin

/-! ## Errors -/

/-- Error numbers a path lookup can end with. -/
inductive Errno
  | ENOENT
  | EACCES
  | ENOTDIR
  | EISDIR
deriving DecidableEq, Repr

/-- A file name, as the list of its components below the root:
`/home/u/.kirin/tls.cert` is `["home", "u", ".kirin", "tls.cert"]`. -/
abbrev Path := List String

/-- Go `error` values met by the bootstrap code: an `*os.PathError`, an error
of a collaborator identified by its text, and the result of
`fmt.Errorf(msg ++ ": %v", cause)`. -/
inductive GoError
  | pathError (op : String) (path : Path) (errno : Errno)
  | text (msg : String)
  | errorf (msg : String) (cause : GoError)
deriving DecidableEq, Repr

/-- The function `os.IsNotExist`: true exactly for a path error whose error
number is `ENOENT`.  It does not look inside an error formatted with `%v`. -/
def osIsNotExist : GoError → Bool
  | .pathError _ _ .ENOENT => true
  | _ => false

/-! ## A model of the filesystem -/

/-- Content of a file. -/
abbrev Bytes := List Nat

/-- What a name denotes: a regular file with its content, or a directory with
its search (execute) permission for the running process. -/
inductive Node
  | file (content : Bytes)
  | dir (searchable : Bool)
deriving DecidableEq, Repr

/-- A filesystem state: the table of the names that denote something.  The root
directory is the entry of the empty path. -/
abbrev FS := List (Path × Node)

/-- Entry of the table at a name. -/
def FS.entry (fs : FS) (p : Path) : Option Node :=
  List.lookup p fs

/-- Path resolution as the kernel performs it for `stat(2)`/`open(2)`: walk from
the directory `cur` through the remaining components; a missing entry is
`ENOENT`, a regular file used as a directory is `ENOTDIR`, a directory without
search permission is `EACCES`. -/
def resolveFrom (fs : FS) : Path → List String → Except Errno Node
  | cur, [] =>
    match FS.entry fs cur with
    | none => .error .ENOENT
    | some n => .ok n
  | cur, c :: rest =>
    match FS.entry fs cur with
    | none => .error .ENOENT
    | some (.file _) => .error .ENOTDIR
    | some (.dir false) => .error .EACCES
    | some (.dir true) => resolveFrom fs (cur ++ [c]) rest

/-- Path resolution from the root. -/
def resolve (fs : FS) (name : Path) : Except Errno Node :=
  resolveFrom fs [] name

/-- Ground truth of existence, independent of permissions: every proper
ancestor of the name is a directory of the table and the name itself has an
entry. -/
def existsFrom (fs : FS) : Path → List String → Bool
  | cur, [] => (FS.entry fs cur).isSome
  | cur, c :: rest =>
    match FS.entry fs cur with
    | some (.dir _) => existsFrom fs (cur ++ [c]) rest
    | _ => false

/-- The named file or directory exists in the filesystem state. -/
def FS.present (fs : FS) (name : Path) : Bool :=
  existsFrom fs [] name

/-- The function `os.Stat`: the node's information and a nil error, or a nil
information and a `*PathError` of operation `stat`. -/
def osStat (fs : FS) (name : Path) : Option Node × Option GoError :=
  match resolve fs name with
  | .ok n => (some n, none)
  | .error e => (none, some (.pathError "stat" name e))

/-- The function `ioutil.ReadFile`: the content of a regular file, or an error
(`open` failed, or the name is a directory). -/
def ioutilReadFile (fs : FS) (name : Path) : Bytes × Option GoError :=
  match resolve fs name with
  | .ok (.file b) => (b, none)
  | .ok (.dir _) => ([], some (.pathError "read" name .EISDIR))
  | .error e => ([], some (.pathError "open" name e))

/-- The function `filepath.Join(dir, file)` for a one-component `file`. -/
def filepathJoin (dir : Path) (file : String) : Path :=
  dir ++ [file]

/-! ## `fileExists` (kirin.go, lines 107-116) -/

/-- The function `fileExists`:
```go
if _, err := os.Stat(name); err != nil {
    if os.IsNotExist(err) {
        return false
    }
}
return true
```
-/
def fileExists (fs : FS) (name : Path) : Bool :=
  match (osStat fs name).2 with
  | some err =>
    if osIsNotExist err then
      false
    else
      true
  | none => true

/-! ## Configuration and invoice requests -/

/-- The etcd section of the configuration; `start` reads `cfg.Etcd.Host`,
`cfg.Etcd.User` and `cfg.Etcd.Password`. -/
structure etcdConfig where
  Host : String
  User : String
  Password : String
deriving DecidableEq, Repr

/-- The struct `config`, with the fields `kirin.go` reads.  Its declaration is
in another file of the package; `A` is the type of the authenticator section
and `S` the type of a service entry.  `Authenticator` is a pointer (`none` is
`nil`), `Services` a slice. -/
structure config (A S : Type) where
  ListenAddr : String
  StaticRoot : String
  Etcd : etcdConfig
  Authenticator : Option A
  Services : List S
  DebugLevel : String
deriving DecidableEq, Repr

/-- The Go zero value `config{}`. -/
def emptyConfig {A S : Type} : config A S :=
  { ListenAddr := "", StaticRoot := "", Etcd := ⟨"", "", ""⟩,
    Authenticator := none, Services := [], DebugLevel := "" }

/-- The message `lnrpc.Invoice`, with the two fields the bootstrap sets; every
other field keeps its zero value. -/
structure Invoice where
  Memo : String
  Value : Int
deriving DecidableEq, Repr

/-- The type `InvoiceRequestGenerator`, a Go `func() (*lnrpc.Invoice, error)`.
A Go closure may read ambient state, so the function takes the state `σ` it is
called in. -/
abbrev InvoiceRequestGenerator (σ : Type) := σ → Option Invoice × Option GoError

/-- The closure `genInvoiceReq` of `start` (lines 67-72):
```go
return &lnrpc.Invoice{Memo: "LSAT", Value: 1}, nil
```
It captures no variable. -/
def genInvoiceReq {σ : Type} : InvoiceRequestGenerator σ :=
  fun _ => (some { Memo := "LSAT", Value := 1 }, none)

/-! ## `getConfig` (kirin.go, lines 118-137) -/

/-- The function `getConfig`.  `readFile` is `ioutil.ReadFile` in the current
filesystem state; `yamlUnmarshal b cfg` is `yaml.Unmarshal(b, cfg)`, returning
the config the pointer designates afterwards together with the error. -/
def getConfig {A S : Type} (readFile : Path → Bytes × Option GoError)
    (yamlUnmarshal : Bytes → config A S → config A S × Option GoError)
    (configFile : Path) : Option (config A S) × Option GoError :=
  let cfg : config A S := emptyConfig
  let (b, err) := readFile configFile
  match err with
  | some e => (none, some e)
  | none =>
    let (cfg, err) := yamlUnmarshal b cfg
    match err with
    | some e => (none, some e)
    | none =>
      if cfg.ListenAddr = "" then
        (none, some (.text "missing listen address for server"))
      else
        (some cfg, none)

/-! ## Collaborators and constants -/

/-- The struct `mint.Config` as `createProxy` fills it. -/
structure MintConfig (C T L : Type) where
  Challenger : Option C
  Secrets : T
  ServiceLimiter : L

/-- Types and functions of other packages and other files that `kirin.go`
calls.  Each is an arbitrary function of its arguments.  `GenCertPair` is the
one collaborator that changes the filesystem state of the model; the files the
log rotator writes are not part of that state.  Of the arguments of
`cert.GenCertPair` the organisation and the two file names are kept; the others
are the constants `nil`, `nil` and `cert.DefaultAutogenValidity`. -/
structure Collaborators where
  World : Type
  AuthConfig : Type
  Service : Type
  EtcdClient : Type
  Challenger : Type
  SecretStore : Type
  ServiceLimiter : Type
  Minter : Type
  Authenticator : Type
  Proxy : Type
  yamlUnmarshal : Bytes → config AuthConfig Service → config AuthConfig Service × Option GoError
  InitLogRotator : Path → Nat → Nat → Option GoError
  ParseAndSetDebugLevels : String → Option GoError
  clientv3New : List String → Nat → String → String → Option EtcdClient × Option GoError
  NewLndChallenger : Option AuthConfig → InvoiceRequestGenerator World →
    Option Challenger × Option GoError
  newSecretStore : Option EtcdClient → SecretStore
  newStaticServiceLimiter : List Service → ServiceLimiter
  mintNew : MintConfig Challenger SecretStore ServiceLimiter → Minter
  NewLsatAuthenticator : Minter → Authenticator
  proxyNew : Authenticator → List Service → String → Option Proxy × Option GoError
  GenCertPair : FS → String → Path → Path → Option GoError × FS

/-- Package-level constants declared outside `kirin.go`. -/
structure Constants where
  kirinDataDir : Path
  defaultConfigFilename : String
  defaultTLSKeyFilename : String
  defaultTLSCertFilename : String
  defaultLogFilename : String
  defaultLogLevel : String
  defaultMaxLogFileSize : Nat
  defaultMaxLogFiles : Nat

/-! ## `setupLogging` (kirin.go, lines 139-154) -/

/-- The function `setupLogging`.  It writes `cfg.DebugLevel` through the
pointer, so the config is returned with the error. -/
def setupLogging (D : Collaborators) (K : Constants)
    (cfg : config D.AuthConfig D.Service) :
    config D.AuthConfig D.Service × Option GoError :=
  let cfg :=
    if cfg.DebugLevel = "" then { cfg with DebugLevel := K.defaultLogLevel } else cfg
  let logFile := filepathJoin K.kirinDataDir K.defaultLogFilename
  match D.InitLogRotator logFile K.defaultMaxLogFileSize K.defaultMaxLogFiles with
  | some e => (cfg, some e)
  | none => (cfg, D.ParseAndSetDebugLevels cfg.DebugLevel)

/-! ## `createProxy` (kirin.go, lines 156-171) -/

/-- A call `createProxy` makes to a constructor of another package, with the
services table or static root it passes. -/
inductive Call (S : Type)
  | NewLndChallenger
  | newSecretStore
  | newStaticServiceLimiter (services : List S)
  | mintNew
  | NewLsatAuthenticator
  | proxyNew (services : List S) (staticRoot : String)
deriving DecidableEq, Repr

/-- The function `createProxy`.  The second component lists, in evaluation
order, the constructor calls made. -/
def createProxy (D : Collaborators) (cfg : config D.AuthConfig D.Service)
    (genInvoiceReq : InvoiceRequestGenerator D.World) (etcdClient : Option D.EtcdClient) :
    (Option D.Proxy × Option GoError) × List (Call D.Service) :=
  let (challenger, err) := D.NewLndChallenger cfg.Authenticator genInvoiceReq
  match err with
  | some e => ((none, some e), [.NewLndChallenger])
  | none =>
    let secrets := D.newSecretStore etcdClient
    let limiter := D.newStaticServiceLimiter cfg.Services
    let minter := D.mintNew
      { Challenger := challenger, Secrets := secrets, ServiceLimiter := limiter }
    let authenticator := D.NewLsatAuthenticator minter
    (D.proxyNew authenticator cfg.Services cfg.StaticRoot,
      [.NewLndChallenger, .newSecretStore, .newStaticServiceLimiter cfg.Services,
        .mintNew, .NewLsatAuthenticator, .proxyNew cfg.Services cfg.StaticRoot])

/-! ## `start` (kirin.go, lines 43-105) -/

/-- How a run of `start` ends in the model: it returns an error before
serving, or it reaches the call `server.ListenAndServeTLS(certFile, keyFile)`
of a server listening on `addr`, in filesystem state `fs`. -/
inductive StartOutcome
  | returned (err : GoError)
  | listenAndServeTLS (addr : String) (certFile keyFile : Path) (fs : FS)
deriving DecidableEq, Repr

/-- The function `start`, run in filesystem state `fs`.  The case of a nil
config with a nil error is the Go nil dereference in `setupLogging`; `getConfig`
never produces it. -/
def start (D : Collaborators) (K : Constants) (fs : FS) : StartOutcome :=
  let configFile := filepathJoin K.kirinDataDir K.defaultConfigFilename
  match getConfig (ioutilReadFile fs) D.yamlUnmarshal configFile with
  | (_, some err) => .returned (.errorf "unable to parse config file" err)
  | (none, none) => .returned (.text "nil pointer dereference")
  | (some cfg, none) =>
    match setupLogging D K cfg with
    | (_, some err) => .returned (.errorf "unable to set up logging" err)
    | (cfg, none) =>
      match D.clientv3New [cfg.Etcd.Host] 5 cfg.Etcd.User cfg.Etcd.Password with
      | (_, some err) => .returned (.errorf "unable to connect to etcd" err)
      | (etcdClient, none) =>
        match (createProxy D cfg genInvoiceReq etcdClient).1 with
        | (_, some err) => .returned err
        | (_, none) =>
          let tlsKeyFile := filepathJoin K.kirinDataDir K.defaultTLSKeyFilename
          let tlsCertFile := filepathJoin K.kirinDataDir K.defaultTLSCertFilename
          if !fileExists fs tlsCertFile && !fileExists fs tlsKeyFile then
            match D.GenCertPair fs "kirin autogenerated cert" tlsCertFile tlsKeyFile with
            | (some err, _) => .returned err
            | (none, fs1) => .listenAndServeTLS cfg.ListenAddr tlsCertFile tlsKeyFile fs1
          else
            .listenAndServeTLS cfg.ListenAddr tlsCertFile tlsKeyFile fs

/-! ## Obligations requested through a generator -/

/-- The obligation a Challenger produces: a payment hash, an amount and an
invoice string to display. -/
structure Obligation where
  paymentHash : Bytes
  amount : Int
  displayInvoice : String
deriving DecidableEq, Repr

/-- Modelled from the spec: the Challenger operation `NewObligation` (sections
4.3 and 6), whose implementation, the challenger that `NewLndChallenger`
builds around the generator, is not in `kirin.go`.  The challenger asks its
invoice request generator for a request and submits it to the payment backend
`addInvoice` (the node's invoice RPC), which answers with a payment hash and an
invoice string or fails.  A failing generator, a nil request or a failing
backend fails the operation; there is no fallback.  The amount of the
obligation is the value of the request. -/
def NewObligation {σ : Type} (gen : InvoiceRequestGenerator σ)
    (addInvoice : Invoice → Except GoError (Bytes × String)) (s : σ) :
    Option Obligation × Option GoError :=
  match gen s with
  | (_, some e) => (none, some e)
  | (none, none) => (none, some (.text "nil invoice request"))
  | (some req, none) =>
    match addInvoice req with
    | .error e => (none, some e)
    | .ok (h, inv) =>
      (some { paymentHash := h, amount := req.Value, displayInvoice := inv }, none)

/-! ## Concrete collaborators for closed examples -/

/-- A concrete `yaml.Unmarshal`: an empty document is an error; a document
whose first byte is `0` leaves the config as it is; any other sets a listen
address, an authenticator section and one service. -/
def stubUnmarshal (b : Bytes) (cfg : config Unit String) :
    config Unit String × Option GoError :=
  match b with
  | [] => (cfg, some (.text "yaml: empty document"))
  | 0 :: _ => (cfg, none)
  | _ :: _ =>
    ({ cfg with ListenAddr := "localhost:8081", Authenticator := some (),
                Services := ["premium"] }, none)

/-- A concrete `cert.GenCertPair`: it writes two regular files and succeeds when
both then exist, and fails leaving the filesystem as it was otherwise. -/
def stubGenCertPair (fs : FS) (_org : String) (certFile keyFile : Path) :
    Option GoError × FS :=
  let fs1 : FS := (certFile, .file [1]) :: (keyFile, .file [2]) :: fs
  if FS.present fs1 certFile && FS.present fs1 keyFile then
    (none, fs1)
  else
    (some (.text "unable to write certificate pair"), fs)

/-- Concrete collaborators: every constructor succeeds, except that the
challenger needs an authenticator section. -/
def stubCollaborators : Collaborators where
  World := Unit
  AuthConfig := Unit
  Service := String
  EtcdClient := Unit
  Challenger := Unit
  SecretStore := Unit
  ServiceLimiter := List String
  Minter := List String
  Authenticator := List String
  Proxy := List String × String
  yamlUnmarshal := stubUnmarshal
  InitLogRotator := fun _ _ _ => none
  ParseAndSetDebugLevels := fun _ => none
  clientv3New := fun _ _ _ _ => (some (), none)
  NewLndChallenger := fun a _ =>
    match a with
    | none => (none, some (.text "missing lnd connection settings"))
    | some _ => (some (), none)
  newSecretStore := fun _ => ()
  newStaticServiceLimiter := fun services => services
  mintNew := fun c => c.ServiceLimiter
  NewLsatAuthenticator := fun m => m
  proxyNew := fun a services root => (some (a ++ services, root), none)
  GenCertPair := stubGenCertPair

/-- Concrete constants. -/
def stubConstants : Constants where
  kirinDataDir := ["data"]
  defaultConfigFilename := "kirin.yaml"
  defaultTLSKeyFilename := "tls.key"
  defaultTLSCertFilename := "tls.cert"
  defaultLogFilename := "kirin.log"
  defaultLogLevel := "info"
  defaultMaxLogFileSize := 10
  defaultMaxLogFiles := 3

/-- A data directory holding a config file and no TLS file. -/
def fsFresh : FS :=
  [([], .dir true), (["data"], .dir true), (["data", "kirin.yaml"], .file [1])]

/-- A data directory holding a config file and a certificate but no key. -/
def fsCertOnly : FS :=
  [([], .dir true), (["data"], .dir true), (["data", "kirin.yaml"], .file [1]),
   (["data", "tls.cert"], .file [7])]

/-- A root directory in which `a` is a regular file. -/
def fsFileAsDir : FS :=
  [([], .dir true), (["a"], .file [])]

/-- A concrete challenger constructor that accepts only a generator answering
with memo `LSAT` and value `1`, and then behaves as the one of
`stubCollaborators`. -/
def stubProbeChallenger (a : Option Unit) (g : InvoiceRequestGenerator Unit) :
    Option Unit × Option GoError :=
  if g () = (some { Memo := "LSAT", Value := 1 }, none) then
    stubCollaborators.NewLndChallenger a g
  else
    (none, some (.text "unexpected invoice request"))

/-- A concrete payment backend: it refuses a request of value zero. -/
def stubAddInvoice (req : Invoice) : Except GoError (Bytes × String) :=
  if req.Value = 0 then .error (.text "zero amount") else .ok ([7], "lnbc1")

/-! ## Lemmas on the filesystem model -/

/-- A name that exists never resolves to `ENOENT`. -/
theorem resolveFrom_ne_enoent (fs : FS) (rest : List String) :
    ∀ cur : Path, existsFrom fs cur rest = true → resolveFrom fs cur rest ≠ .error .ENOENT := by
  induction rest with
  | nil =>
    intro cur h
    unfold existsFrom at h
    unfold resolveFrom
    cases he : FS.entry fs cur with
    | none => simp [he] at h
    | some n => simp
  | cons c rest ih =>
    intro cur h
    unfold existsFrom at h
    unfold resolveFrom
    cases he : FS.entry fs cur with
    | none => simp [he] at h
    | some n =>
      cases n with
      | file b => simp
      | dir sch =>
        cases sch with
        | false => simp
        | true =>
          simp only [he] at h
          exact ih (cur ++ [c]) h

/-- The sound half of `fileExists`: a name that exists is reported present. -/
theorem fileExists_of_present (fs : FS) (name : Path) (h : FS.present fs name = true) :
    fileExists fs name = true := by
  have hne := resolveFrom_ne_enoent fs name [] h
  unfold fileExists osStat resolve
  cases hr : resolveFrom fs [] name with
  | ok n => simp
  | error e =>
    cases e with
    | ENOENT => exact absurd hr hne
    | EACCES => simp [osIsNotExist]
    | ENOTDIR => simp [osIsNotExist]
    | EISDIR => simp [osIsNotExist]

/-! ## Claim C1: `getConfig` -/

/-- Claim C1.  For every config file path, `getConfig` returns a non-nil error
exactly when reading the file fails, or unmarshalling its bytes into an empty
config fails, or the unmarshalled config has an empty `ListenAddr`; with an
error the config is nil; without one the config is exactly the one obtained by
unmarshalling the file's bytes into an empty config. -/
theorem getConfig_contract {A S : Type} (readFile : Path → Bytes × Option GoError)
    (yamlUnmarshal : Bytes → config A S → config A S × Option GoError)
    (configFile : Path) :
    ((getConfig readFile yamlUnmarshal configFile).2 ≠ none ↔
      ((readFile configFile).2 ≠ none ∨
        (yamlUnmarshal (readFile configFile).1 emptyConfig).2 ≠ none ∨
        (yamlUnmarshal (readFile configFile).1 emptyConfig).1.ListenAddr = "")) ∧
    ((getConfig readFile yamlUnmarshal configFile).2 ≠ none →
      (getConfig readFile yamlUnmarshal configFile).1 = none) ∧
    ((getConfig readFile yamlUnmarshal configFile).2 = none →
      (getConfig readFile yamlUnmarshal configFile).1 =
        some (yamlUnmarshal (readFile configFile).1 emptyConfig).1) := by
  unfold getConfig
  rcases hr : readFile configFile with ⟨b, _ | e⟩
  · rcases hu : yamlUnmarshal b emptyConfig with ⟨cfg, _ | e⟩
    · by_cases hl : cfg.ListenAddr = ""
      · simp [hu, hl]
      · simp [hu, hl]
    · simp [hu]
  · simp

/-- Claim C1 at concrete inputs: a readable file with a listen address is
returned as unmarshalled, without error. -/
theorem getConfig_contract_witness :
    (getConfig (ioutilReadFile fsFresh) stubUnmarshal ["data", "kirin.yaml"]).2 = none ∧
    (getConfig (ioutilReadFile fsFresh) stubUnmarshal ["data", "kirin.yaml"]).1 =
      some (stubUnmarshal (ioutilReadFile fsFresh ["data", "kirin.yaml"]).1 emptyConfig).1 :=
  ⟨by decide,
    (getConfig_contract (ioutilReadFile fsFresh) stubUnmarshal ["data", "kirin.yaml"]).2.2
      (by decide)⟩

/-! ## Claim C2: the invoice request generator -/

/-- The outcome of `start` does not change when the challenger constructor is
replaced by one that agrees with it on the generator `genInvoiceReq`. -/
theorem start_challenger_congr (D : Collaborators) (K : Constants) (fs : FS)
    (f : Option D.AuthConfig → InvoiceRequestGenerator D.World →
      Option D.Challenger × Option GoError)
    (h : ∀ a, f a genInvoiceReq = D.NewLndChallenger a genInvoiceReq) :
    start { D with NewLndChallenger := f } K fs = start D K fs := by
  have hcp : ∀ (cfg : config D.AuthConfig D.Service) (etcd : Option D.EtcdClient),
      createProxy { D with NewLndChallenger := f } cfg genInvoiceReq etcd =
        createProxy D cfg genInvoiceReq etcd := by
    intro cfg etcd
    simp only [createProxy, h]
  have hsl : ∀ cfg : config D.AuthConfig D.Service,
      setupLogging { D with NewLndChallenger := f } K cfg = setupLogging D K cfg :=
    fun _ => rfl
  unfold start
  simp only [hsl]
  split
  · rfl
  · rfl
  · split
    · rfl
    · split
      · rfl
      · rw [hcp]
        generalize (createProxy D _ genInvoiceReq _).1 = r
        rcases r with ⟨p, _ | e⟩ <;> rfl

/-- A run of `start` that reaches `ListenAndServeTLS` has read a config, set up
logging, obtained an etcd client and got no error from `createProxy` called
with `genInvoiceReq`. -/
theorem start_reaches_createProxy (D : Collaborators) (K : Constants) (fs fs1 : FS)
    (addr : String) (c k : Path) (h : start D K fs = .listenAndServeTLS addr c k fs1) :
    ∃ (cfg cfg1 : config D.AuthConfig D.Service) (etcd : Option D.EtcdClient),
      getConfig (ioutilReadFile fs) D.yamlUnmarshal
          (filepathJoin K.kirinDataDir K.defaultConfigFilename) = (some cfg, none) ∧
      setupLogging D K cfg = (cfg1, none) ∧
      D.clientv3New [cfg1.Etcd.Host] 5 cfg1.Etcd.User cfg1.Etcd.Password = (etcd, none) ∧
      (createProxy D cfg1 genInvoiceReq etcd).1.2 = none := by
  unfold start at h
  simp only at h
  split at h
  · simp at h
  · simp at h
  · rename_i cfg hcfg
    split at h
    · simp at h
    · rename_i cfg1 hlog
      split at h
      · simp at h
      · rename_i etcd hetcd
        split at h
        · simp at h
        · rename_i hp
          exact ⟨cfg, cfg1, etcd, hcfg, hlog, hetcd, by rw [hp]⟩

/-- Once the config is read, logging is set up and the etcd client obtained,
an error of `createProxy` called with `genInvoiceReq` is what `start` returns. -/
theorem start_returns_createProxy_error (D : Collaborators) (K : Constants) (fs : FS)
    (cfg cfg1 : config D.AuthConfig D.Service) (etcd : Option D.EtcdClient) (err : GoError)
    (hcfg : getConfig (ioutilReadFile fs) D.yamlUnmarshal
      (filepathJoin K.kirinDataDir K.defaultConfigFilename) = (some cfg, none))
    (hlog : setupLogging D K cfg = (cfg1, none))
    (hetcd : D.clientv3New [cfg1.Etcd.Host] 5 cfg1.Etcd.User cfg1.Etcd.Password = (etcd, none))
    (hp : (createProxy D cfg1 genInvoiceReq etcd).1.2 = some err) :
    start D K fs = .returned err := by
  unfold start
  simp only [hcfg, hlog, hetcd]
  rcases hr : (createProxy D cfg1 genInvoiceReq etcd).1 with ⟨p, _ | e⟩
  · rw [hr] at hp; simp at hp
  · rw [hr] at hp
    simp only [Option.some.injEq] at hp
    subst hp
    rfl

/-- Claim C2.  The invoice request generator `start` passes to `createProxy` is
`genInvoiceReq`: an error of `createProxy` called with it is what `start`
returns, a `start` that serves got no error from `createProxy` called with it,
and `start` consults the challenger constructor at no other generator.  That
generator never fails: in every state, and at each of any sequence of
invocations, it returns a nil error and the request with memo `LSAT` and value
`1`.  Hence an obligation requested through it fails only when the payment
backend fails on that request, and its amount is `1`, which is nonzero. -/
theorem start_genInvoiceReq (D : Collaborators) (K : Constants) (fs : FS)
    (f : Option D.AuthConfig → InvoiceRequestGenerator D.World →
      Option D.Challenger × Option GoError)
    {σ : Type} (s : σ) (calls : List σ)
    (addInvoice : Invoice → Except GoError (Bytes × String)) :
    (∀ (cfg cfg1 : config D.AuthConfig D.Service) (etcd : Option D.EtcdClient)
        (err : GoError),
      getConfig (ioutilReadFile fs) D.yamlUnmarshal
          (filepathJoin K.kirinDataDir K.defaultConfigFilename) = (some cfg, none) →
      setupLogging D K cfg = (cfg1, none) →
      D.clientv3New [cfg1.Etcd.Host] 5 cfg1.Etcd.User cfg1.Etcd.Password = (etcd, none) →
      (createProxy D cfg1 genInvoiceReq etcd).1.2 = some err →
      start D K fs = .returned err) ∧
    (∀ (addr : String) (c k : Path) (fs1 : FS),
      start D K fs = .listenAndServeTLS addr c k fs1 →
      ∃ (cfg cfg1 : config D.AuthConfig D.Service) (etcd : Option D.EtcdClient),
        getConfig (ioutilReadFile fs) D.yamlUnmarshal
            (filepathJoin K.kirinDataDir K.defaultConfigFilename) = (some cfg, none) ∧
        setupLogging D K cfg = (cfg1, none) ∧
        D.clientv3New [cfg1.Etcd.Host] 5 cfg1.Etcd.User cfg1.Etcd.Password = (etcd, none) ∧
        (createProxy D cfg1 genInvoiceReq etcd).1.2 = none) ∧
    ((∀ a, f a genInvoiceReq = D.NewLndChallenger a genInvoiceReq) →
      start { D with NewLndChallenger := f } K fs = start D K fs) ∧
    genInvoiceReq s = (some { Memo := "LSAT", Value := 1 }, none) ∧
    (∃ inv : Invoice, (genInvoiceReq s).1 = some inv ∧ inv.Value ≠ 0) ∧
    calls.map genInvoiceReq =
      List.replicate calls.length (some { Memo := "LSAT", Value := 1 }, none) ∧
    NewObligation genInvoiceReq addInvoice s =
      (match addInvoice { Memo := "LSAT", Value := 1 } with
        | .error e => (none, some e)
        | .ok (h, inv) =>
          (some { paymentHash := h, amount := 1, displayInvoice := inv }, none)) ∧
    (∀ ob : Obligation,
      (NewObligation genInvoiceReq addInvoice s).1 = some ob → ob.amount ≠ 0) := by
  refine ⟨?_, ?_, ?_, rfl, ⟨{ Memo := "LSAT", Value := 1 }, rfl, by decide⟩, ?_, ?_, ?_⟩
  · intro cfg cfg1 etcd err hcfg hlog hetcd hp
    exact start_returns_createProxy_error D K fs cfg cfg1 etcd err hcfg hlog hetcd hp
  · intro addr c k fs1 h
    exact start_reaches_createProxy D K fs fs1 addr c k h
  · intro h
    exact start_challenger_congr D K fs f h
  · induction calls with
    | nil => rfl
    | cons a t ih => simp [List.replicate_succ, ih, genInvoiceReq]
  · simp only [NewObligation, genInvoiceReq]
  · intro ob hob
    simp only [NewObligation, genInvoiceReq] at hob
    cases hadd : addInvoice { Memo := "LSAT", Value := 1 } with
    | error e => simp [hadd] at hob
    | ok r =>
      simp only [hadd, Option.some.injEq] at hob
      subst hob
      exact one_ne_zero

/-- Claim C2 at concrete inputs: a challenger constructor that refuses every
generator but the one answering `LSAT`/`1` leaves the run of `start` as it is,
that run serves, and the obligation requested through the generator from a
backend that refuses zero amounts has amount `1`. -/
theorem start_genInvoiceReq_witness :
    start { stubCollaborators with NewLndChallenger := stubProbeChallenger }
        stubConstants fsFresh =
      start stubCollaborators stubConstants fsFresh ∧
    (∃ (cfg1 : config Unit String) (etcd : Option Unit),
      (createProxy stubCollaborators cfg1 genInvoiceReq etcd).1.2 = none) ∧
    (NewObligation genInvoiceReq stubAddInvoice ()).1 =
      some { paymentHash := [7], amount := 1, displayInvoice := "lnbc1" } ∧
    ({ paymentHash := [7], amount := 1, displayInvoice := "lnbc1" } : Obligation).amount ≠ 0 :=
  ⟨(start_genInvoiceReq stubCollaborators stubConstants fsFresh stubProbeChallenger ()
      [(), ()] stubAddInvoice).2.2.1 (fun a => by cases a <;> rfl),
    (by
      obtain ⟨_, cfg1, etcd, _, _, _, h⟩ :=
        (start_genInvoiceReq stubCollaborators stubConstants fsFresh stubProbeChallenger ()
          [(), ()] stubAddInvoice).2.1 "localhost:8081" ["data", "tls.cert"]
          ["data", "tls.key"]
          ((["data", "tls.cert"], .file [1]) :: (["data", "tls.key"], .file [2]) :: fsFresh)
          (by decide)
      exact ⟨cfg1, etcd, h⟩),
    by decide,
    (start_genInvoiceReq stubCollaborators stubConstants fsFresh stubProbeChallenger ()
      [(), ()] stubAddInvoice).2.2.2.2.2.2.2 _ (by decide)⟩

/-! ## Claim C3: `createProxy` -/

/-- Claim C3.  If `NewLndChallenger(cfg.Authenticator, genInvoiceReq)` fails,
`createProxy` returns a nil proxy and that error, having called no other
constructor; otherwise it returns the result of `proxy.New` on the
authenticator over the minter built from that challenger, the secret store over
the etcd client and the static service limiter over `cfg.Services`, and on
`cfg.Services` and `cfg.StaticRoot`: limiter and proxy get the same table. -/
theorem createProxy_contract (D : Collaborators) (cfg : config D.AuthConfig D.Service)
    (gen : InvoiceRequestGenerator D.World) (etcdClient : Option D.EtcdClient) :
    (∀ e, (D.NewLndChallenger cfg.Authenticator gen).2 = some e →
      createProxy D cfg gen etcdClient = ((none, some e), [.NewLndChallenger])) ∧
    ((D.NewLndChallenger cfg.Authenticator gen).2 = none →
      createProxy D cfg gen etcdClient =
        (D.proxyNew
            (D.NewLsatAuthenticator
              (D.mintNew
                { Challenger := (D.NewLndChallenger cfg.Authenticator gen).1,
                  Secrets := D.newSecretStore etcdClient,
                  ServiceLimiter := D.newStaticServiceLimiter cfg.Services }))
            cfg.Services cfg.StaticRoot,
          [.NewLndChallenger, .newSecretStore, .newStaticServiceLimiter cfg.Services,
            .mintNew, .NewLsatAuthenticator, .proxyNew cfg.Services cfg.StaticRoot])) := by
  unfold createProxy
  rcases hc : D.NewLndChallenger cfg.Authenticator gen with ⟨ch, _ | e⟩
  · simp
  · simp

/-- Claim C3 at concrete inputs: with no authenticator section the challenger
fails and nothing else is called; with one, the proxy is built over the same
services table as the limiter. -/
theorem createProxy_contract_witness :
    createProxy stubCollaborators emptyConfig genInvoiceReq (some ()) =
      ((none, some (.text "missing lnd connection settings")), [.NewLndChallenger]) ∧
    createProxy stubCollaborators
        { ListenAddr := "localhost:8081", StaticRoot := "static", Etcd := ⟨"", "", ""⟩,
          Authenticator := some (), Services := ["premium"], DebugLevel := "" }
        genInvoiceReq (some ()) =
      ((some (["premium", "premium"], "static"), none),
        [.NewLndChallenger, .newSecretStore, .newStaticServiceLimiter ["premium"],
          .mintNew, .NewLsatAuthenticator, .proxyNew ["premium"] "static"]) :=
  ⟨(createProxy_contract stubCollaborators emptyConfig genInvoiceReq (some ())).1
      (.text "missing lnd connection settings") rfl,
    (createProxy_contract stubCollaborators
        { ListenAddr := "localhost:8081", StaticRoot := "static", Etcd := ⟨"", "", ""⟩,
          Authenticator := some (), Services := ["premium"], DebugLevel := "" }
        genInvoiceReq (some ())).2 rfl⟩

/-! ## Claim C4: the TLS files when `start` begins to serve -/

/-- The concrete `GenCertPair` meets the assumption made on `cert.GenCertPair`:
when it succeeds, both files exist afterwards. -/
theorem stubGenCertPair_creates (fs : FS) (org : String) (c k : Path) (fs2 : FS)
    (h : stubGenCertPair fs org c k = (none, fs2)) :
    FS.present fs2 c = true ∧ FS.present fs2 k = true := by
  unfold stubGenCertPair at h
  simp only at h
  split at h
  · rename_i hp
    simp only [Prod.mk.injEq, true_and] at h
    subst h
    simpa using hp
  · simp at h

/-- What a run of `start` that reaches `ListenAndServeTLS` did in its TLS step:
it serves with the two joined file names, and either `fileExists` reported both
absent and `GenCertPair` succeeded, producing the final filesystem state, or
`fileExists` reported one of them and the filesystem state is the initial one. -/
theorem start_reaches (D : Collaborators) (K : Constants) (fs fs1 : FS) (addr : String)
    (c k : Path) (h : start D K fs = .listenAndServeTLS addr c k fs1) :
    c = filepathJoin K.kirinDataDir K.defaultTLSCertFilename ∧
    k = filepathJoin K.kirinDataDir K.defaultTLSKeyFilename ∧
    ((fileExists fs c = false ∧ fileExists fs k = false ∧
        D.GenCertPair fs "kirin autogenerated cert" c k = (none, fs1)) ∨
      ((fileExists fs c = true ∨ fileExists fs k = true) ∧ fs1 = fs)) := by
  unfold start at h
  simp only at h
  split at h
  · simp at h
  · simp at h
  · split at h
    · simp at h
    · split at h
      · simp at h
      · split at h
        · simp at h
        · split at h
          · rename_i hcond
            split at h
            · simp at h
            · rename_i hg
              simp only [StartOutcome.listenAndServeTLS.injEq] at h
              obtain ⟨_, hc, hk, hfs⟩ := h
              subst hc hk hfs
              simp only [Bool.and_eq_true, Bool.not_eq_true'] at hcond
              exact ⟨rfl, rfl, Or.inl ⟨hcond.1, hcond.2, hg⟩⟩
          · rename_i hcond
            simp only [StartOutcome.listenAndServeTLS.injEq] at h
            obtain ⟨_, hc, hk, hfs⟩ := h
            subst hc hk hfs
            simp only [Bool.and_eq_true, Bool.not_eq_true', not_and, Bool.not_eq_false] at hcond
            refine ⟨rfl, rfl, Or.inr ⟨?_, rfl⟩⟩
            by_cases hx : fileExists fs (filepathJoin K.kirinDataDir K.defaultTLSCertFilename) = true
            · exact Or.inl hx
            · exact Or.inr (hcond (by simpa using hx))

/-- Claim C4 as stated fails.  With collaborators whose `GenCertPair` creates
both files whenever it succeeds, and a data directory holding the certificate
but no key, `start` skips generation and reaches `ListenAndServeTLS` in the
unchanged filesystem, where the key file does not exist. -/
theorem start_tls_key_missing :
    (∀ (fs : FS) (org : String) (c k : Path) (fs2 : FS),
      stubCollaborators.GenCertPair fs org c k = (none, fs2) →
        FS.present fs2 c = true ∧ FS.present fs2 k = true) ∧
    start stubCollaborators stubConstants fsCertOnly =
      .listenAndServeTLS "localhost:8081" ["data", "tls.cert"] ["data", "tls.key"]
        fsCertOnly ∧
    FS.present fsCertOnly ["data", "tls.cert"] = true ∧
    FS.present fsCertOnly ["data", "tls.key"] = false :=
  ⟨fun fs org c k fs2 h => stubGenCertPair_creates fs org c k fs2 h,
    by decide, by decide, by decide⟩

/-- Claim C4, amended.  Assume a successful `GenCertPair` on the two TLS file
names creates both files, and `start` reaches `ListenAndServeTLS` with
certificate `c` and key `k` in filesystem state `fs1`.  If initially one of the
two files exists, nothing is generated and `fs1` is the initial state.  If
initially the two files are both present or both absent, and `fileExists`
reports neither of them present while it is absent, both exist in `fs1`. -/
theorem start_tls_files (D : Collaborators) (K : Constants) (fs fs1 : FS) (addr : String)
    (c k : Path)
    (hgen : ∀ fs2,
      D.GenCertPair fs "kirin autogenerated cert"
          (filepathJoin K.kirinDataDir K.defaultTLSCertFilename)
          (filepathJoin K.kirinDataDir K.defaultTLSKeyFilename) = (none, fs2) →
        FS.present fs2 (filepathJoin K.kirinDataDir K.defaultTLSCertFilename) = true ∧
        FS.present fs2 (filepathJoin K.kirinDataDir K.defaultTLSKeyFilename) = true)
    (hreach : start D K fs = .listenAndServeTLS addr c k fs1) :
    c = filepathJoin K.kirinDataDir K.defaultTLSCertFilename ∧
    k = filepathJoin K.kirinDataDir K.defaultTLSKeyFilename ∧
    (FS.present fs c = true ∨ FS.present fs k = true → fs1 = fs) ∧
    (FS.present fs c = FS.present fs k →
      (fileExists fs c = true → FS.present fs c = true) →
      (fileExists fs k = true → FS.present fs k = true) →
      FS.present fs1 c = true ∧ FS.present fs1 k = true) := by
  obtain ⟨hc, hk, hstep⟩ := start_reaches D K fs fs1 addr c k hreach
  subst hc hk
  refine ⟨rfl, rfl, ?_, ?_⟩
  · intro hex
    rcases hstep with ⟨hfc, hfk, _⟩ | ⟨_, hfs⟩
    · rcases hex with h | h
      · have h1 := fileExists_of_present fs _ h
        rw [hfc] at h1; exact absurd h1 (by decide)
      · have h1 := fileExists_of_present fs _ h
        rw [hfk] at h1; exact absurd h1 (by decide)
    · exact hfs
  · intro hboth hsc hsk
    rcases hstep with ⟨_, _, hg⟩ | ⟨hrep, hfs⟩
    · exact hgen fs1 hg
    · subst hfs
      rcases hrep with h | h
      · have hpc := hsc h
        exact ⟨hpc, by rw [← hboth]; exact hpc⟩
      · have hpk := hsk h
        exact ⟨by rw [hboth]; exact hpk, hpk⟩

/-- Claim C4, amended, at a concrete input: from a data directory with neither
TLS file, `start` reaches `ListenAndServeTLS` after generating both. -/
theorem start_tls_files_witness :
    start stubCollaborators stubConstants fsFresh =
      .listenAndServeTLS "localhost:8081" ["data", "tls.cert"] ["data", "tls.key"]
        ((["data", "tls.cert"], .file [1]) :: (["data", "tls.key"], .file [2]) :: fsFresh) ∧
    FS.present fsFresh ["data", "tls.cert"] = FS.present fsFresh ["data", "tls.key"] ∧
    FS.present
        ((["data", "tls.cert"], .file [1]) :: (["data", "tls.key"], .file [2]) :: fsFresh)
        ["data", "tls.cert"] = true ∧
    FS.present
        ((["data", "tls.cert"], .file [1]) :: (["data", "tls.key"], .file [2]) :: fsFresh)
        ["data", "tls.key"] = true :=
  ⟨by decide, by decide,
    (start_tls_files stubCollaborators stubConstants fsFresh
      ((["data", "tls.cert"], .file [1]) :: (["data", "tls.key"], .file [2]) :: fsFresh)
      "localhost:8081" ["data", "tls.cert"] ["data", "tls.key"]
      (fun fs2 h =>
        stubGenCertPair_creates fsFresh "kirin autogenerated cert" ["data", "tls.cert"]
          ["data", "tls.key"] fs2 h)
      (by decide)).2.2.2
      (by decide) (by decide) (by decide)⟩

/-! ## Claim C5: `fileExists` -/

/-- Claim C5 at a failing input.  In a filesystem where `a` is a regular file,
the name `a/b` does not exist; `os.Stat` fails on it with `ENOTDIR`, which is
not a not-exist error, and `fileExists` returns true.  In the same filesystem
the absent name `b` is reported absent. -/
theorem fileExists_true_on_missing :
    FS.present fsFileAsDir ["a", "b"] = false ∧
    osStat fsFileAsDir ["a", "b"] = (none, some (.pathError "stat" ["a", "b"] .ENOTDIR)) ∧
    osIsNotExist (.pathError "stat" ["a", "b"] .ENOTDIR) = false ∧
    fileExists fsFileAsDir ["a", "b"] = true ∧
    fileExists fsFileAsDir ["b"] = false := by
  decide

end Kirin
